import Mathlib

/-!
Verification of the client-side logic of a portfolio admin panel
(gallery / certificates / courses / career / videos / skills / messages
managers and the account-settings page).

The TypeScript components are embedded shallowly:

* `calculateDuration` (CareerManager) works on year/month pairs; the
  JavaScript `Date` objects only contribute `getFullYear`/`getMonth`
  to the computation, so a date is modelled by those two fields.
* event-handler control flow (validation gates, confirmation dialogs,
  request/response/feedback ordering) is modelled by pure functions
  returning the requests issued, the resulting component state, or a
  trace of UI events in program order.
-/

namespace Portfolio

/-- A calendar point as seen by `calculateDuration`: only
`getFullYear()` and `getMonth()` of a JS `Date` are used. -/
structure YM where
  year : Int
  month : Int
deriving DecidableEq, Repr

/-- Embedding of `calculateDuration(startDate, endDate?, isCurrent?)` from
the CareerManager.  `today` stands for `new Date()`.  The running sum
`years * 12 + months` is clamped at zero via `Int.toNat`, which is exactly
`if (totalMonths < 0) totalMonths = 0` followed by the (then non-negative)
`Math.floor(totalMonths / 12)` and `totalMonths % 12`. -/
def calculateDuration (today startDate endDate : YM) (isCurrent : Bool) : String :=
  let start := startDate
  let e := if isCurrent then today else endDate
  let years := e.year - start.year
  let months := e.month - start.month
  let totalMonths : Nat := (years * 12 + months).toNat
  let yearsPart := totalMonths / 12
  let monthsPart := totalMonths % 12
  if yearsPart == 0 && monthsPart == 0 then "Less than 1 month"
  else
    let parts : List String :=
      (if yearsPart > 0 then [toString yearsPart ++ " yr" ++ (if yearsPart > 1 then "s" else "")] else []) ++
      (if monthsPart > 0 then [toString monthsPart ++ " mo" ++ (if monthsPart > 1 then "s" else "")] else [])
    String.intercalate " " parts

/-- The total-month count named by the specification:
`(end.year - start.year) * 12 + (end.month - start.month)`. -/
def claimTotalMonths (s e : YM) : Int :=
  (e.year - s.year) * 12 + (e.month - s.month)

/-- The duration string as the specification describes it: the total
months clamped below at zero (`Int.toNat` is exactly that clamp);
`"Less than 1 month"` when that is `0`; otherwise
`floor(totalMonths / 12)` years and `totalMonths mod 12` months
rendered `"<n> yr"`/`"<n> yrs"` and `"<n> mo"`/`"<n> mos"`,
joined by a space, omitting a zero part. -/
def claimDuration (s e : YM) : String :=
  let tm : Nat := (claimTotalMonths s e).toNat
  if tm = 0 then "Less than 1 month"
  else
    String.intercalate " "
      ((if tm / 12 = 0 then [] else
          [if tm / 12 = 1 then toString (tm / 12) ++ " yr" else toString (tm / 12) ++ " yrs"]) ++
       (if tm % 12 = 0 then [] else
          [if tm % 12 = 1 then toString (tm % 12) ++ " mo" else toString (tm % 12) ++ " mos"]))

lemma year_parts_eq (y : Nat) :
    (if y > 0 then [toString y ++ " yr" ++ (if y > 1 then "s" else "")] else []) =
    (if y = 0 then [] else [if y = 1 then toString y ++ " yr" else toString y ++ " yrs"]) := by
  rcases Nat.eq_zero_or_pos y with h0 | hpos
  · subst h0; simp
  · rcases eq_or_lt_of_le hpos with h1 | h1
    · subst h1; decide
    · simp only [if_pos hpos, if_pos h1, if_neg (by omega : ¬ y = 0), if_neg (by omega : ¬ y = 1)]
      have hs : (" yr" : String) ++ "s" = " yrs" := by decide
      rw [String.append_assoc, hs]

lemma month_parts_eq (m : Nat) :
    (if m > 0 then [toString m ++ " mo" ++ (if m > 1 then "s" else "")] else []) =
    (if m = 0 then [] else [if m = 1 then toString m ++ " mo" else toString m ++ " mos"]) := by
  rcases Nat.eq_zero_or_pos m with h0 | hpos
  · subst h0; simp
  · rcases eq_or_lt_of_le hpos with h1 | h1
    · subst h1; decide
    · simp only [if_pos hpos, if_pos h1, if_neg (by omega : ¬ m = 0), if_neg (by omega : ¬ m = 1)]
      have hs : (" mo" : String) ++ "s" = " mos" := by decide
      rw [String.append_assoc, hs]

lemma duration_render_eq (n : Nat) :
    (if n / 12 == 0 && n % 12 == 0 then "Less than 1 month"
     else
       String.intercalate " "
         ((if n / 12 > 0 then [toString (n / 12) ++ " yr" ++ (if n / 12 > 1 then "s" else "")] else []) ++
          (if n % 12 > 0 then [toString (n % 12) ++ " mo" ++ (if n % 12 > 1 then "s" else "")] else []))) =
    (if n = 0 then "Less than 1 month"
     else
       String.intercalate " "
         ((if n / 12 = 0 then [] else
             [if n / 12 = 1 then toString (n / 12) ++ " yr" else toString (n / 12) ++ " yrs"]) ++
          (if n % 12 = 0 then [] else
             [if n % 12 = 1 then toString (n % 12) ++ " mo" else toString (n % 12) ++ " mos"]))) := by
  by_cases h : n = 0
  · subst h; rfl
  · rw [if_neg (by simp only [Bool.and_eq_true, beq_iff_eq]; omega :
        ¬ ((n / 12 == 0 && n % 12 == 0) = true)), if_neg h]
    rw [year_parts_eq, month_parts_eq]

/-- C1: for every pair of valid dates (with the end resolved to today
when `isCurrent` is set and to the item's end date otherwise),
`calculateDuration` returns exactly the duration string the
specification describes. -/
theorem calculateDuration_matches_spec (today s e : YM) (isCurrent : Bool) :
    calculateDuration today s e isCurrent =
      claimDuration s (if isCurrent then today else e) :=
  duration_render_eq
    (((if isCurrent then today else e).year - s.year) * 12 +
      ((if isCurrent then today else e).month - s.month)).toNat

/-- C10: when the end point (year, month) precedes the start point, the
raw total-month count is negative, the clamp takes it to zero, and
`calculateDuration` reports `"Less than 1 month"`. -/
theorem calculateDuration_never_negative (today s e : YM) (isCurrent : Bool)
    (h : claimTotalMonths s (if isCurrent then today else e) < 0) :
    calculateDuration today s e isCurrent = "Less than 1 month" := by
  unfold calculateDuration
  set e' := if isCurrent then today else e with he'
  have hz : ((e'.year - s.year) * 12 + (e'.month - s.month)).toNat = 0 :=
    Int.toNat_of_nonpos (le_of_lt h)
  simp only [hz]
  rfl

/-- Witness for C10 at a concrete input: start 2024-05 (month index 4),
end 2023-02 (month index 1), not current. -/
theorem calculateDuration_never_negative_witness :
    calculateDuration ⟨2025, 0⟩ ⟨2024, 4⟩ ⟨2023, 1⟩ false = "Less than 1 month" :=
  calculateDuration_never_negative ⟨2025, 0⟩ ⟨2024, 4⟩ ⟨2023, 1⟩ false (by decide)

/-! ### Messages page: client-side search/filter -/

/-- A contact message as the messages page sees it (fields used by
`filterMessages`; `status` is one of `"new"`, `"read"`, `"replied"`). -/
structure Message where
  name : String
  email : String
  message : String
  status : String
deriving DecidableEq, Repr

/-- `p.startsWith q` on character lists (models the anchor step of
JS `String.prototype.includes`). -/
def charsStartWith : List Char → List Char → Bool
  | _, [] => true
  | [], _ :: _ => false
  | c :: cs, d :: ds => c == d && charsStartWith cs ds

/-- Does `l` contain `n` as a contiguous run? -/
def charsContain : List Char → List Char → Bool
  | [], n => n.isEmpty
  | c :: cs, n => charsStartWith (c :: cs) n || charsContain cs n

/-- Embedding of JS `haystack.includes(needle)`. -/
def strIncludes (haystack needle : String) : Bool :=
  charsContain haystack.toList needle.toList

/-- Embedding of `filterMessages` from the messages page: first the
status filter (skipped when the selected filter is `"all"`), then the
lowercased substring search over name, email and body (skipped when
the query trims to empty). -/
def filterMessages (messages : List Message) (filterStatus searchQuery : String) :
    List Message :=
  let filtered := messages
  let filtered :=
    if filterStatus ≠ "all" then filtered.filter (fun msg => msg.status == filterStatus)
    else filtered
  let filtered :=
    if searchQuery.trim ≠ "" then
      let query := searchQuery.toLower
      filtered.filter (fun msg =>
        strIncludes msg.name.toLower query || strIncludes msg.email.toLower query ||
          strIncludes msg.message.toLower query)
    else filtered
  filtered

/-- C2: `filterMessages` keeps exactly the messages whose status matches
the selected filter (or any status when it is `"all"`) and which, when
the query is non-blank, contain the lowercased query in the lowercased
name, email or body; expressing the result as a single `List.filter`
also fixes the relative order of the kept messages. -/
theorem filterMessages_keeps_exactly (messages : List Message) (st q : String) :
    filterMessages messages st q =
      messages.filter (fun msg =>
        (st == "all" || msg.status == st) &&
        (q.trim == "" ||
          (strIncludes msg.name.toLower q.toLower ||
            strIncludes msg.email.toLower q.toLower ||
            strIncludes msg.message.toLower q.toLower))) := by
  by_cases hst : st = "all" <;> by_cases hq : q.trim = ""
  · simp [filterMessages, hst, hq]
  · have h2 : (q.trim == "") = false := by simpa using hq
    simp [filterMessages, hst, hq, h2]
  · have h1 : (st == "all") = false := by simpa using hst
    simp [filterMessages, hst, hq, h1]
  · have h1 : (st == "all") = false := by simpa using hst
    have h2 : (q.trim == "") = false := by simpa using hq
    simp only [filterMessages, if_pos hst, if_pos hq, List.filter_filter]
    refine List.filter_congr fun msg _ => ?_
    simp [h1, h2, Bool.and_comm]

/-! ### Admin settings: password strength heuristic -/

/-- The strength caption rendered under the bar on the admin settings
page: `length >= 8` strong, `length >= 6` medium, otherwise weak. -/
def passwordStrengthLabel (newPassword : String) : String :=
  if newPassword.length ≥ 8 then "Strong password"
  else if newPassword.length ≥ 6 then "Medium strength"
  else "Weak password"

/-- The strength-bar width in percent:
`Math.min((newPassword.length / 12) * 100, 100)`. -/
def passwordBarWidth (newPassword : String) : ℚ :=
  min ((newPassword.length : ℚ) / 12 * 100) 100

/-- C3: for every non-empty new password, the caption is
`"Strong password"` iff the length is at least 8, `"Medium strength"`
iff it is 6 or 7, `"Weak password"` iff it is below 6, and the bar
width is `min((length / 12) * 100, 100)` percent. -/
theorem passwordStrength_thresholds (pw : String) (_hpw : pw ≠ "") :
    (passwordStrengthLabel pw = "Strong password" ↔ 8 ≤ pw.length) ∧
    (passwordStrengthLabel pw = "Medium strength" ↔ (pw.length = 6 ∨ pw.length = 7)) ∧
    (passwordStrengthLabel pw = "Weak password" ↔ pw.length < 6) ∧
    passwordBarWidth pw = min ((pw.length : ℚ) / 12 * 100) 100 := by
  unfold passwordStrengthLabel passwordBarWidth
  rcases Nat.lt_or_ge pw.length 6 with h6 | h6
  · rw [if_neg (by omega), if_neg (by omega)]
    exact ⟨⟨fun h => absurd h (by decide), fun h => absurd h (by omega)⟩,
      ⟨fun h => absurd h (by decide), fun h => absurd h (by omega)⟩,
      ⟨fun _ => h6, fun _ => rfl⟩, rfl⟩
  · rcases Nat.lt_or_ge pw.length 8 with h8 | h8
    · rw [if_neg (by omega), if_pos (by omega)]
      exact ⟨⟨fun h => absurd h (by decide), fun h => absurd h (by omega)⟩,
        ⟨fun _ => by omega, fun _ => rfl⟩,
        ⟨fun h => absurd h (by decide), fun h => absurd h (by omega)⟩, rfl⟩
    · rw [if_pos (by omega)]
      exact ⟨⟨fun _ => h8, fun _ => rfl⟩,
        ⟨fun h => absurd h (by decide), fun h => absurd h (by omega)⟩,
        ⟨fun h => absurd h (by decide), fun h => absurd h (by omega)⟩, rfl⟩

/-- Witness for C3 at the concrete password `"abcdefgh"` (length 8). -/
theorem passwordStrength_thresholds_witness :
    passwordStrengthLabel "abcdefgh" = "Strong password" :=
  (passwordStrength_thresholds "abcdefgh" (by decide)).1.mpr (by decide)

/-! ### Admin settings: submit gate -/

/-- The settings form state (`formData`). -/
structure SettingsForm where
  email : String
  currentPassword : String
  newPassword : String
  confirmPassword : String
deriving DecidableEq, Repr

/-- The JSON body of the `PUT /api/admin/settings` request;
`newPassword` is dropped (`undefined`) when the field is empty. -/
structure SettingsPayload where
  email : String
  currentPassword : String
  newPassword : Option String
deriving DecidableEq, Repr

/-- The observable outcome of `handleSubmit`: either a validation error
notification with no request, or the request being sent. -/
inductive SettingsSubmitResult where
  | blocked (msg : String)
  | sent (payload : SettingsPayload)
deriving DecidableEq, Repr

/-- Embedding of `handleSubmit` on the admin settings page, paired with
the `formData` state at the end of the validation phase (the early
returns never touch `formData`). -/
def settingsHandleSubmit (fd : SettingsForm) : SettingsSubmitResult × SettingsForm :=
  if fd.newPassword ≠ "" ∧ fd.newPassword ≠ fd.confirmPassword then
    (.blocked "New passwords do not match", fd)
  else if fd.newPassword ≠ "" ∧ fd.newPassword.length < 6 then
    (.blocked "New password must be at least 6 characters long", fd)
  else
    (.sent ⟨fd.email, fd.currentPassword,
      if fd.newPassword = "" then none else some fd.newPassword⟩, fd)

/-- C5: the PUT request is issued iff the new password is empty, or it
equals the confirmation and has length at least 6; otherwise one of the
two error notifications is shown, no request is issued, and the form
state is unchanged. -/
theorem settings_submit_gate (fd : SettingsForm) :
    ((∃ p, (settingsHandleSubmit fd).1 = .sent p) ↔
      (fd.newPassword = "" ∨
        (fd.newPassword = fd.confirmPassword ∧ 6 ≤ fd.newPassword.length))) ∧
    (∀ msg, (settingsHandleSubmit fd).1 = .blocked msg →
      (msg = "New passwords do not match" ∨
        msg = "New password must be at least 6 characters long") ∧
      (settingsHandleSubmit fd).2 = fd) := by
  by_cases ha : fd.newPassword = ""
  · simp [settingsHandleSubmit, ha]
  · by_cases hb : fd.newPassword = fd.confirmPassword
    · have ha' : ¬ fd.confirmPassword = "" := hb ▸ ha
      by_cases hc : fd.newPassword.length < 6
      · have hc' : fd.confirmPassword.length < 6 := hb ▸ hc
        simp [settingsHandleSubmit, ha, ha', hb, hc, hc']
      · have hc' : ¬ fd.confirmPassword.length < 6 := hb ▸ hc
        simp [settingsHandleSubmit, ha, ha', hb, hc, hc']
        omega
    · simp [settingsHandleSubmit, ha, hb]

/-- Witness for C5: a matching 7-character password pair sends the
request. -/
theorem settings_submit_gate_witness :
    ∃ p, (settingsHandleSubmit
        ⟨"admin@example.com", "oldpass", "secret1", "secret1"⟩).1 =
      SettingsSubmitResult.sent p :=
  (settings_submit_gate ⟨"admin@example.com", "oldpass", "secret1", "secret1"⟩).1.mpr
    (Or.inr ⟨rfl, by decide⟩)

/-! ### Manager pages: records, delete handlers, career submission -/

/-- A REST call as issued by `fetch`. -/
structure ApiRequest where
  method : String
  url : String
deriving DecidableEq, Repr

/-- A gallery record (GalleryManager). -/
structure GalleryItem where
  title : String
  imageUrl : String
  cloudinaryId : String
deriving DecidableEq, Repr

/-- A certificate record (CertificatesManager). -/
structure Certificate where
  title : String
  imageUrl : String
  cloudinaryId : String
  date : Option String
deriving DecidableEq, Repr

/-- A course record (CoursesManager). -/
structure Course where
  name : String
  description : String
deriving DecidableEq, Repr

/-- A skill record (SkillsManager). -/
structure Skill where
  name : String
  order : Option Nat
  icon : String
deriving DecidableEq, Repr

/-- A video record (VideosManager). -/
structure Video where
  title : String
  description : String
  url : String
  embedType : String
deriving DecidableEq, Repr

/-- A career timeline record.  `startTime` stands for
`new Date(item.startDate).getTime()`, the only use the component makes
of the start date when sorting. -/
structure CareerItem where
  workplace : String
  position : String
  startTime : Int
  isCurrent : Bool
deriving DecidableEq, Repr

/-- `deleteImage` (GalleryManager): the Swal confirmation dialog result
decides whether the DELETE request is sent; on cancel nothing happens
and the displayed list stays as it was, on confirm the list is
refreshed from the server (`serverGallery`). -/
def deleteImage (confirmed : Bool) (id : String)
    (gallery serverGallery : List GalleryItem) :
    List ApiRequest × List GalleryItem :=
  if confirmed then ([⟨"DELETE", "/api/gallery/" ++ id⟩], serverGallery)
  else ([], gallery)

/-- `deleteCertificate` (CertificatesManager), same shape. -/
def deleteCertificate (confirmed : Bool) (id : String)
    (certificates serverCertificates : List Certificate) :
    List ApiRequest × List Certificate :=
  if confirmed then ([⟨"DELETE", "/api/certificates/" ++ id⟩], serverCertificates)
  else ([], certificates)

/-- `deleteCourse` (CoursesManager), same shape. -/
def deleteCourse (confirmed : Bool) (id : String)
    (courses serverCourses : List Course) :
    List ApiRequest × List Course :=
  if confirmed then ([⟨"DELETE", "/api/courses/" ++ id⟩], serverCourses)
  else ([], courses)

/-- `deleteSkill` (SkillsManager), same shape. -/
def deleteSkill (confirmed : Bool) (id : String)
    (skills serverSkills : List Skill) :
    List ApiRequest × List Skill :=
  if confirmed then ([⟨"DELETE", "/api/skills/" ++ id⟩], serverSkills)
  else ([], skills)

/-- `deleteCareerItem` (CareerManager), same shape. -/
def deleteCareerItem (confirmed : Bool) (id : String)
    (career serverCareer : List CareerItem) :
    List ApiRequest × List CareerItem :=
  if confirmed then ([⟨"DELETE", "/api/career/" ++ id⟩], serverCareer)
  else ([], career)

/-- `deleteVideo` (VideosManager), same shape. -/
def deleteVideo (confirmed : Bool) (id : String)
    (videos serverVideos : List Video) :
    List ApiRequest × List Video :=
  if confirmed then ([⟨"DELETE", "/api/videos/" ++ id⟩], serverVideos)
  else ([], videos)

/-- C4: for each of the six manager delete handlers, cancelling the
confirmation dialog sends no request and leaves the displayed list
unchanged, and the DELETE request to `/api/<resource>/<id>` is issued
exactly in the confirmed branch. -/
theorem delete_only_after_confirmation (id : String)
    (g gs : List GalleryItem) (c cs : List Certificate)
    (co cos : List Course) (sk sks : List Skill)
    (ca cas : List CareerItem) (v vs : List Video) :
    deleteImage false id g gs = ([], g) ∧
    (deleteImage true id g gs).1 = [⟨"DELETE", "/api/gallery/" ++ id⟩] ∧
    deleteCertificate false id c cs = ([], c) ∧
    (deleteCertificate true id c cs).1 = [⟨"DELETE", "/api/certificates/" ++ id⟩] ∧
    deleteCourse false id co cos = ([], co) ∧
    (deleteCourse true id co cos).1 = [⟨"DELETE", "/api/courses/" ++ id⟩] ∧
    deleteSkill false id sk sks = ([], sk) ∧
    (deleteSkill true id sk sks).1 = [⟨"DELETE", "/api/skills/" ++ id⟩] ∧
    deleteCareerItem false id ca cas = ([], ca) ∧
    (deleteCareerItem true id ca cas).1 = [⟨"DELETE", "/api/career/" ++ id⟩] ∧
    deleteVideo false id v vs = ([], v) ∧
    (deleteVideo true id v vs).1 = [⟨"DELETE", "/api/videos/" ++ id⟩] :=
  ⟨rfl, rfl, rfl, rfl, rfl, rfl, rfl, rfl, rfl, rfl, rfl, rfl⟩

/-! ### CareerManager: fetch-time sorting -/

/-- The sorting step of `fetchCareer`:
`data.sort((a, b) => new Date(b.startDate).getTime() - new Date(a.startDate).getTime())`,
i.e. sorting so that larger (newer) start timestamps come first. -/
def fetchCareerSorted (data : List CareerItem) : List CareerItem :=
  data.mergeSort (fun a b => decide (b.startTime ≤ a.startTime))

/-- C6: after fetching, the displayed career list is a permutation of
the fetched data, sorted with the newest start date first. -/
theorem fetchCareer_sorted_perm (data : List CareerItem) :
    List.Perm (fetchCareerSorted data) data ∧
    (fetchCareerSorted data).Pairwise (fun a b => b.startTime ≤ a.startTime) := by
  constructor
  · exact List.mergeSort_perm data _
  · have h : (List.mergeSort data
        (fun a b => decide (b.startTime ≤ a.startTime))).Pairwise
        (fun a b => decide (b.startTime ≤ a.startTime) = true) := by
      apply List.sorted_mergeSort
      · intro a b c hab hbc
        exact decide_eq_true (le_trans (of_decide_eq_true hbc) (of_decide_eq_true hab))
      · intro a b
        rcases le_total b.startTime a.startTime with hle | hle <;> simp [hle]
    exact h.imp fun hab => of_decide_eq_true hab

/-! ### CareerManager: submission payload -/

/-- The career form data (`careerSchema`). -/
structure CareerFormData where
  workplace : String
  position : String
  startDate : String
  endDate : Option String
  isCurrent : Bool
deriving DecidableEq, Repr

/-- A career create/update request with its JSON body. -/
structure CareerRequest where
  method : String
  url : String
  body : CareerFormData
deriving DecidableEq, Repr

/-- Embedding of the CareerManager `onSubmit`: the payload replaces
`endDate` by `undefined` when `isCurrent` is set, and the request is a
PUT to `/api/career/<id>` when editing, otherwise a POST to
`/api/career`. -/
def careerOnSubmit (editingId : Option String) (data : CareerFormData) : CareerRequest :=
  let submitData : CareerFormData :=
    { data with endDate := if data.isCurrent then none else data.endDate }
  match editingId with
  | some id => ⟨"PUT", "/api/career/" ++ id, submitData⟩
  | none => ⟨"POST", "/api/career", submitData⟩

/-- C9: in every submitted career payload, `isCurrent` implies the
absence of `endDate`. -/
theorem career_current_implies_no_endDate (editingId : Option String)
    (data : CareerFormData) (h : data.isCurrent = true) :
    (careerOnSubmit editingId data).body.endDate = none := by
  cases editingId <;> simp [careerOnSubmit, h]

/-- Witness for C9: a current position submitted with a stale end date
still carries none. -/
theorem career_current_implies_no_endDate_witness :
    (careerOnSubmit none
        ⟨"Acme Coffee", "Barista", "2024-01-01", some "2024-06-01", true⟩).body.endDate =
      none :=
  career_current_implies_no_endDate none
    ⟨"Acme Coffee", "Barista", "2024-01-01", some "2024-06-01", true⟩ rfl

/-! ### Mutation handlers as UI event traces

Each handler awaits `fetch`, checks `response.ok`, and only then fires
the Swal feedback and the refetch; the traces below record that program
order. -/

/-- An observable step of a mutation handler, in program order. -/
inductive UiEvent where
  | requestSent (method url : String)
  | responseReceived (ok : Bool)
  | successShown (text : String)
  | errorShown (text : String)
  | listRefetched
deriving DecidableEq, Repr

def isSuccessShown : UiEvent → Bool
  | .successShown _ => true
  | .requestSent _ _ => false
  | .responseReceived _ => false
  | .errorShown _ => false
  | .listRefetched => false

def isResponseReceived : UiEvent → Bool
  | .responseReceived _ => true
  | .requestSent _ _ => false
  | .successShown _ => false
  | .errorShown _ => false
  | .listRefetched => false

def isListRefetched : UiEvent → Bool
  | .listRefetched => true
  | .requestSent _ _ => false
  | .responseReceived _ => false
  | .successShown _ => false
  | .errorShown _ => false

/-- Index of the first event satisfying `p`. -/
def firstIdx (p : UiEvent → Bool) : List UiEvent → Option Nat
  | [] => none
  | e :: t => if p e then some 0 else (firstIdx p t).map (· + 1)

/-- Does some event satisfying `p` occur strictly before every event
satisfying `q` (vacuously when `q` never occurs, falsely when `p`
never occurs)? -/
def occursBefore (p q : UiEvent → Bool) (t : List UiEvent) : Bool :=
  match firstIdx p t, firstIdx q t with
  | some i, some j => decide (i < j)
  | some _, none => true
  | none, _ => false

/-- Does every occurrence of `p` come strictly after the response
(vacuously true when `p` never occurs)? -/
def afterResponse (p : UiEvent → Bool) (t : List UiEvent) : Bool :=
  match firstIdx p t with
  | none => true
  | some i =>
    match firstIdx isResponseReceived t with
    | none => false
    | some j => decide (j < i)

/-- Trace of the SkillsManager `onSubmit`: PUT to `/api/skills/<id>`
when editing, POST to `/api/skills` otherwise; the Swal feedback and
`fetchSkills()` run only after `await fetch` returns. -/
def skillsSubmitTrace (editingId : Option String) (ok : Bool) : List UiEvent :=
  match editingId with
  | some id =>
    if ok then
      [.requestSent "PUT" ("/api/skills/" ++ id), .responseReceived true,
       .successShown "Skill updated successfully", .listRefetched]
    else
      [.requestSent "PUT" ("/api/skills/" ++ id), .responseReceived false,
       .errorShown "Failed to save skill"]
  | none =>
    if ok then
      [.requestSent "POST" "/api/skills", .responseReceived true,
       .successShown "Skill created successfully", .listRefetched]
    else
      [.requestSent "POST" "/api/skills", .responseReceived false,
       .errorShown "Failed to save skill"]

/-- Trace of the GalleryManager `onSubmit` (upload or update). -/
def gallerySubmitTrace (editingId : Option String) (ok : Bool) : List UiEvent :=
  let url := match editingId with
    | some id => "/api/gallery/" ++ id
    | none => "/api/gallery"
  let method := match editingId with
    | some _ => "PUT"
    | none => "POST"
  if ok then
    [.requestSent method url, .responseReceived true,
     .successShown (match editingId with
       | some _ => "Image updated successfully"
       | none => "Image uploaded successfully"),
     .listRefetched]
  else
    [.requestSent method url, .responseReceived false,
     .errorShown (match editingId with
       | some _ => "Failed to update image"
       | none => "Failed to upload image")]

/-- Trace of the GalleryManager `deleteImage` (after the confirmation
dialog; the empty trace is the cancelled dialog). -/
def galleryDeleteTrace (confirmed : Bool) (id : String) (ok : Bool) : List UiEvent :=
  if confirmed then
    if ok then
      [.requestSent "DELETE" ("/api/gallery/" ++ id), .responseReceived true,
       .successShown "Image has been deleted.", .listRefetched]
    else
      [.requestSent "DELETE" ("/api/gallery/" ++ id), .responseReceived false,
       .errorShown "Failed to delete image"]
  else []

/-- Trace of the CertificatesManager `onSubmit` (upload or update). -/
def certificatesSubmitTrace (editingId : Option String) (ok : Bool) : List UiEvent :=
  match editingId with
  | some id =>
    if ok then
      [.requestSent "PUT" ("/api/certificates/" ++ id), .responseReceived true,
       .successShown "Certificate updated successfully", .listRefetched]
    else
      [.requestSent "PUT" ("/api/certificates/" ++ id), .responseReceived false,
       .errorShown "Failed to update certificate"]
  | none =>
    if ok then
      [.requestSent "POST" "/api/certificates", .responseReceived true,
       .successShown "Certificate uploaded successfully", .listRefetched]
    else
      [.requestSent "POST" "/api/certificates", .responseReceived false,
       .errorShown "Failed to upload certificate"]

/-- Trace of the CoursesManager `onSubmit` (create or update). -/
def coursesSubmitTrace (editingId : Option String) (ok : Bool) : List UiEvent :=
  match editingId with
  | some id =>
    if ok then
      [.requestSent "PUT" ("/api/courses/" ++ id), .responseReceived true,
       .successShown "Course updated successfully", .listRefetched]
    else
      [.requestSent "PUT" ("/api/courses/" ++ id), .responseReceived false,
       .errorShown "Failed to save course"]
  | none =>
    if ok then
      [.requestSent "POST" "/api/courses", .responseReceived true,
       .successShown "Course created successfully", .listRefetched]
    else
      [.requestSent "POST" "/api/courses", .responseReceived false,
       .errorShown "Failed to save course"]

/-- Trace of the CareerManager `onSubmit` (create or update). -/
def careerSubmitTrace (editingId : Option String) (ok : Bool) : List UiEvent :=
  match editingId with
  | some id =>
    if ok then
      [.requestSent "PUT" ("/api/career/" ++ id), .responseReceived true,
       .successShown "Career item updated successfully", .listRefetched]
    else
      [.requestSent "PUT" ("/api/career/" ++ id), .responseReceived false,
       .errorShown "Failed to save career item"]
  | none =>
    if ok then
      [.requestSent "POST" "/api/career", .responseReceived true,
       .successShown "Career item created successfully", .listRefetched]
    else
      [.requestSent "POST" "/api/career", .responseReceived false,
       .errorShown "Failed to save career item"]

/-- Trace of the VideosManager `onSubmit` (create or update). -/
def videosSubmitTrace (editingId : Option String) (ok : Bool) : List UiEvent :=
  match editingId with
  | some id =>
    if ok then
      [.requestSent "PUT" ("/api/videos/" ++ id), .responseReceived true,
       .successShown "Video updated successfully", .listRefetched]
    else
      [.requestSent "PUT" ("/api/videos/" ++ id), .responseReceived false,
       .errorShown "Failed to save video"]
  | none =>
    if ok then
      [.requestSent "POST" "/api/videos", .responseReceived true,
       .successShown "Video created successfully", .listRefetched]
    else
      [.requestSent "POST" "/api/videos", .responseReceived false,
       .errorShown "Failed to save video"]

/-- Trace of the CertificatesManager `deleteCertificate` handler. -/
def certificatesDeleteTrace (confirmed : Bool) (id : String) (ok : Bool) : List UiEvent :=
  if confirmed then
    if ok then
      [.requestSent "DELETE" ("/api/certificates/" ++ id), .responseReceived true,
       .successShown "Certificate has been deleted.", .listRefetched]
    else
      [.requestSent "DELETE" ("/api/certificates/" ++ id), .responseReceived false,
       .errorShown "Failed to delete certificate"]
  else []

/-- Trace of the CoursesManager `deleteCourse` handler. -/
def coursesDeleteTrace (confirmed : Bool) (id : String) (ok : Bool) : List UiEvent :=
  if confirmed then
    if ok then
      [.requestSent "DELETE" ("/api/courses/" ++ id), .responseReceived true,
       .successShown "Course has been deleted.", .listRefetched]
    else
      [.requestSent "DELETE" ("/api/courses/" ++ id), .responseReceived false,
       .errorShown "Failed to delete course"]
  else []

/-- Trace of the SkillsManager `deleteSkill` handler. -/
def skillsDeleteTrace (confirmed : Bool) (id : String) (ok : Bool) : List UiEvent :=
  if confirmed then
    if ok then
      [.requestSent "DELETE" ("/api/skills/" ++ id), .responseReceived true,
       .successShown "Skill has been deleted.", .listRefetched]
    else
      [.requestSent "DELETE" ("/api/skills/" ++ id), .responseReceived false,
       .errorShown "Failed to delete skill"]
  else []

/-- Trace of the CareerManager `deleteCareerItem` handler. -/
def careerDeleteTrace (confirmed : Bool) (id : String) (ok : Bool) : List UiEvent :=
  if confirmed then
    if ok then
      [.requestSent "DELETE" ("/api/career/" ++ id), .responseReceived true,
       .successShown "Career item has been deleted.", .listRefetched]
    else
      [.requestSent "DELETE" ("/api/career/" ++ id), .responseReceived false,
       .errorShown "Failed to delete career item"]
  else []

/-- Trace of the VideosManager `deleteVideo` handler. -/
def videosDeleteTrace (confirmed : Bool) (id : String) (ok : Bool) : List UiEvent :=
  if confirmed then
    if ok then
      [.requestSent "DELETE" ("/api/videos/" ++ id), .responseReceived true,
       .successShown "Video has been deleted.", .listRefetched]
    else
      [.requestSent "DELETE" ("/api/videos/" ++ id), .responseReceived false,
       .errorShown "Failed to delete video"]
  else []

/-- C7 counterexample: in the skill-creation trace the response is
received at position 1 and the success feedback only appears at
position 2, so the feedback is not shown before the server's response
— the UI is not optimistic. -/
theorem optimistic_feedback_counterexample :
    firstIdx isResponseReceived (skillsSubmitTrace none true) = some 1 ∧
    firstIdx isSuccessShown (skillsSubmitTrace none true) = some 2 ∧
    occursBefore isSuccessShown isResponseReceived (skillsSubmitTrace none true) = false := by
  decide

/-- C7 amended: in every create/update/delete trace of all six manager
pages (gallery, certificates, courses, skills, career, videos), the
success feedback and the list refresh happen only strictly after the
server's response has been received. -/
theorem feedback_only_after_response (editingId : Option String)
    (ok confirmed : Bool) (id : String) :
    afterResponse isSuccessShown (gallerySubmitTrace editingId ok) = true ∧
    afterResponse isListRefetched (gallerySubmitTrace editingId ok) = true ∧
    afterResponse isSuccessShown (certificatesSubmitTrace editingId ok) = true ∧
    afterResponse isListRefetched (certificatesSubmitTrace editingId ok) = true ∧
    afterResponse isSuccessShown (coursesSubmitTrace editingId ok) = true ∧
    afterResponse isListRefetched (coursesSubmitTrace editingId ok) = true ∧
    afterResponse isSuccessShown (skillsSubmitTrace editingId ok) = true ∧
    afterResponse isListRefetched (skillsSubmitTrace editingId ok) = true ∧
    afterResponse isSuccessShown (careerSubmitTrace editingId ok) = true ∧
    afterResponse isListRefetched (careerSubmitTrace editingId ok) = true ∧
    afterResponse isSuccessShown (videosSubmitTrace editingId ok) = true ∧
    afterResponse isListRefetched (videosSubmitTrace editingId ok) = true ∧
    afterResponse isSuccessShown (galleryDeleteTrace confirmed id ok) = true ∧
    afterResponse isListRefetched (galleryDeleteTrace confirmed id ok) = true ∧
    afterResponse isSuccessShown (certificatesDeleteTrace confirmed id ok) = true ∧
    afterResponse isListRefetched (certificatesDeleteTrace confirmed id ok) = true ∧
    afterResponse isSuccessShown (coursesDeleteTrace confirmed id ok) = true ∧
    afterResponse isListRefetched (coursesDeleteTrace confirmed id ok) = true ∧
    afterResponse isSuccessShown (skillsDeleteTrace confirmed id ok) = true ∧
    afterResponse isListRefetched (skillsDeleteTrace confirmed id ok) = true ∧
    afterResponse isSuccessShown (careerDeleteTrace confirmed id ok) = true ∧
    afterResponse isListRefetched (careerDeleteTrace confirmed id ok) = true ∧
    afterResponse isSuccessShown (videosDeleteTrace confirmed id ok) = true ∧
    afterResponse isListRefetched (videosDeleteTrace confirmed id ok) = true := by
  cases editingId <;> cases ok <;> cases confirmed <;>
    exact ⟨rfl, rfl, rfl, rfl, rfl, rfl, rfl, rfl, rfl, rfl, rfl, rfl,
      rfl, rfl, rfl, rfl, rfl, rfl, rfl, rfl, rfl, rfl, rfl, rfl⟩

/-! ### Repository inventory -/

/-- A source file of the repository together with the
`/api/<resource>` endpoint bases it fetches. -/
structure SourceFile where
  path : String
  apiEndpoints : List String
deriving DecidableEq, Repr

/-- The files shown in the repository:
GalleryManager (`part_000`); CertificatesManager and CoursesManager
(`part_001`); CareerManager, VideosManager and the messages page
(`part_002`); AdminSettings and SkillsManager (`settings/page.tsx`);
and the static `Footer`, which performs no fetch at all. -/
def repoFiles : List SourceFile :=
  [⟨"src/unnamed/part_000", ["/api/gallery"]⟩,
   ⟨"src/unnamed/part_001", ["/api/certificates", "/api/courses"]⟩,
   ⟨"src/unnamed/part_002", ["/api/career", "/api/videos", "/api/messages"]⟩,
   ⟨"src/app/admin/settings/page.tsx", ["/api/admin/settings", "/api/skills"]⟩,
   ⟨"src/components/Footer.tsx", []⟩]

/-- C8 counterexample: not every source file calls a REST endpoint —
`Footer.tsx` is a purely presentational component with no fetch. -/
theorem every_file_calls_api_counterexample :
    ¬ (∀ f ∈ repoFiles, f.apiEndpoints ≠ []) := by
  intro h
  exact h ⟨"src/components/Footer.tsx", []⟩ (by simp [repoFiles]) rfl

/-- C8 amended: every source file shown except the static footer is a
form-and-list page calling `/api/<resource>` endpoints. -/
theorem every_file_but_footer_calls_api :
    ∀ f ∈ repoFiles, f.path ≠ "src/components/Footer.tsx" → f.apiEndpoints ≠ [] := by
  decide

/-- Witness for the amended C8 at the gallery manager file. -/
theorem every_file_but_footer_calls_api_witness :
    (⟨"src/unnamed/part_000", ["/api/gallery"]⟩ : SourceFile).apiEndpoints ≠ [] :=
  every_file_but_footer_calls_api ⟨"src/unnamed/part_000", ["/api/gallery"]⟩
    (by decide) (by decide)

end Portfolio
